import Mathlib

/-!
# Verification of the format_specifications orchestration core

Shallow embedding of the generation-engine, cache, retry, placement,
validation and reconstruction logic of the `format_specifications`
repository (files `utils/ai_word_utils.py`, `utils/image_tracker.py`,
`utils/template_validator.py`, `utils/word_formatter.py`,
`utils/template_definitions.py`), together with proofs of the
specification's testable properties.
-/

namespace FormatSpec

/-! ## Data model (`template_definitions.py`) -/

/-- The `SectionType` enum from `template_definitions.py`. -/
inductive SectionType where
  | heading
  | list
  | nested
  | table
  | optional
deriving DecidableEq, Repr

/-- The `TemplateSection` dataclass: a single (possibly nested) template section. -/
inductive Section where
  | mk (id : String) (title : String) (sectionType : SectionType)
       (word_count : Option Int) (requirements : Option String)
       (subsections : List Section) (bullet_points : Option (List String))
       (is_optional : Bool) (placeholder_template : Option String)
deriving Repr

def Section.id : Section → String
  | .mk i _ _ _ _ _ _ _ _ => i

def Section.title : Section → String
  | .mk _ t _ _ _ _ _ _ _ => t

def Section.sectionType : Section → SectionType
  | .mk _ _ ty _ _ _ _ _ _ => ty

def Section.word_count : Section → Option Int
  | .mk _ _ _ w _ _ _ _ _ => w

def Section.requirements : Section → Option String
  | .mk _ _ _ _ r _ _ _ _ => r

def Section.subsections : Section → List Section
  | .mk _ _ _ _ _ s _ _ _ => s

def Section.bullet_points : Section → Option (List String)
  | .mk _ _ _ _ _ _ b _ _ => b

/-- The `DocumentTemplate` dataclass (the fields the orchestration core reads). -/
structure DocumentTemplate where
  id : String
  name : String
  description : String
  category : String
  sections : List Section
  total_word_count : Option Int := none
deriving Repr

/-- Exceptions of the Python runtime as the orchestration code distinguishes
them: `requests.exceptions.ConnectionError` and `requests.exceptions.Timeout`
are the transient-network class retried by `retry_on_connection_error`;
`ValueError` and `AttributeError` are caught inside `process_text`;
everything else (`UnboundLocalError`, API errors, ...) is `other`. -/
inductive PyErr where
  | connErr (msg : String)
  | timeout (msg : String)
  | valueError (msg : String)
  | attributeError (msg : String)
  | other (msg : String)
deriving DecidableEq, Repr

instance {ε α : Type} [DecidableEq ε] [DecidableEq α] :
    DecidableEq (Except ε α) := fun
  | .error a, .error b =>
    if h : a = b then .isTrue (by rw [h])
    else .isFalse (fun c => by cases c; exact h rfl)
  | .error _, .ok _ => .isFalse (fun c => by cases c)
  | .ok _, .error _ => .isFalse (fun c => by cases c)
  | .ok a, .ok b =>
    if h : a = b then .isTrue (by rw [h])
    else .isFalse (fun c => by cases c; exact h rfl)

/-- The transient-network error class caught by `retry_on_connection_error`
(its `except (requests.exceptions.ConnectionError, requests.exceptions.Timeout)`
clause). -/
def PyErr.isTransient : PyErr → Bool
  | .connErr _ => true
  | .timeout _ => true
  | _ => false

/-! ## Python string primitives

Lean's built-in `String.trim`/`toLower`/`splitOn` are implemented on byte
positions, which the kernel cannot evaluate; the Python string operations
the source uses are therefore modelled directly over the character list of
the string (Python `len`/slicing also count characters, not bytes). -/

/-- The whitespace class of Python's `str.strip()` / `str.split()`
(ASCII part: space, tab, newline, carriage return, vertical tab, form
feed). -/
def isPyWhitespace (c : Char) : Bool :=
  c = ' ' ∨ c = '\t' ∨ c = '\n' ∨ c = '\r' ∨ c = '\x0b' ∨ c = '\x0c'

/-- Python `str.strip()`: remove leading and trailing whitespace. -/
def pyStrip (s : String) : String :=
  String.mk (((s.data.dropWhile isPyWhitespace).reverse.dropWhile
    isPyWhitespace).reverse)

/-- Python `len(s)`: number of characters. -/
def pyLen (s : String) : Nat := s.data.length

/-- Python `s[:n]`: first `n` characters. -/
def pyTake (s : String) (n : Nat) : String := String.mk (s.data.take n)

/-- Python `str.lower()` (ASCII range; the titles and keywords scored by the
placement resolver are compared after lowering). -/
def lowerChar (c : Char) : Char :=
  if 65 ≤ c.toNat ∧ c.toNat ≤ 90 then Char.ofNat (c.toNat + 32) else c

/-- Python `str.lower()` on a whole string. -/
def pyLower (s : String) : String := String.mk (s.data.map lowerChar)

/-- Python `needle in hay`: substring containment. -/
def pyContains (hay needle : String) : Bool :=
  (List.range (hay.data.length + 1)).any
    (fun i => needle.data.isPrefixOf (hay.data.drop i))

/-- Python `sep.join(xs)`. -/
def pyJoin (sep : String) (xs : List String) : String :=
  String.mk (List.intercalate sep.data (xs.map String.data))

/-- Python `str.split()` with no argument: split on whitespace runs,
discarding empty pieces. -/
def pySplitWsAux : List Char → List Char → List String
  | acc, [] => if acc.isEmpty then [] else [String.mk acc.reverse]
  | acc, c :: rest =>
    if isPyWhitespace c then
      if acc.isEmpty then pySplitWsAux [] rest
      else String.mk acc.reverse :: pySplitWsAux [] rest
    else pySplitWsAux (c :: acc) rest

/-- Python `str.split()` with no argument. -/
def pySplitWs (s : String) : List String := pySplitWsAux [] s.data

/-- Python `str.split("\n\n")` over the character list (greedy
left-to-right, non-overlapping separator occurrences). -/
def pySplitNlNlAux : List Char → List (List Char)
  | [] => [[]]
  | '\n' :: '\n' :: rest => [] :: pySplitNlNlAux rest
  | c :: rest =>
    match pySplitNlNlAux rest with
    | [] => [[c]]
    | g :: gs => (c :: g) :: gs

/-- Python `s.split("\n\n")`. -/
def pySplitNlNl (s : String) : List String :=
  (pySplitNlNlAux s.data).map String.mk

mutual

/-- Pre-order flattening of one section and its subtree, as performed by the
nested `collect_sections` helpers in `generate_from_template_batch` /
`generate_from_template_parallel` (`ai_word_utils.py`). -/
def flattenSection : Section → List Section
  | .mk i t ty w r subs b o p =>
    .mk i t ty w r subs b o p :: flattenSections subs

/-- Pre-order flattening of a section list (`collect_sections` over a list). -/
def flattenSections : List Section → List Section
  | [] => []
  | s :: rest => flattenSection s ++ flattenSections rest

end

/-! ## RetryPolicy (`retry_on_connection_error`, `ai_word_utils.py` 53-100)

The wrapped function is modelled as `f : Nat → Except PyErr String`, giving
the outcome of the underlying call on each attempt index.  Sleeps
(`time.sleep(wait_time)`) are logged as a list of the requested
durations. -/

/-- How the `for attempt in range(max_retries)` loop of the retry wrapper
ends: an early `return` of the wrapped call's value, an uncaught (non
transient-network) exception, or fall-through after `max_retries` failed
attempts. -/
inductive RetryOutcome where
  | returned (v : String)
  | raised (e : PyErr)
  | exhausted
deriving DecidableEq, Repr

/-- The `for attempt in range(max_retries)` loop of the retry wrapper,
structured on the number of remaining iterations (`remaining` starts at
`max_retries`, so `attempt = max_retries - remaining` throughout).  A
transient error sleeps (and multiplies `wait_time` by the backoff factor)
only when `attempt < max_retries - 1`, exactly as in the source. -/
def retry_loop (max_retries backoff_factor : Nat) (f : Nat → Except PyErr String) :
    Nat → Nat → Nat → List Nat → RetryOutcome × List Nat
  | 0, _, _, sleeps => (.exhausted, sleeps)
  | remaining + 1, attempt, wait_time, sleeps =>
    match f attempt with
    | .ok v => (.returned v, sleeps)
    | .error e =>
      if e.isTransient then
        if attempt < max_retries - 1 then
          retry_loop max_retries backoff_factor f remaining (attempt + 1)
            (wait_time * backoff_factor) (sleeps ++ [wait_time])
        else
          retry_loop max_retries backoff_factor f remaining (attempt + 1) wait_time sleeps
      else
        (.raised e, sleeps)

/-- The whole `retry_on_connection_error` wrapper.  `fallback_raw` is
`fallback_return == "raw_text"`; `rawArg` is `args[0]` when `args` is
non-empty (`none` models an empty `args`).  Returns the call's result (or
the propagated exception) together with the sleep log. -/
def retry_on_connection_error (max_retries backoff_factor : Nat)
    (fallback_raw : Bool) (rawArg : Option String)
    (f : Nat → Except PyErr String) : Except PyErr String × List Nat :=
  match retry_loop max_retries backoff_factor f max_retries 0 1 [] with
  | (.returned v, sleeps) => (.ok v, sleeps)
  | (.raised e, sleeps) => (.error e, sleeps)
  | (.exhausted, sleeps) =>
    match fallback_raw, rawArg with
    | true, some raw_text => (.ok (pyStrip raw_text), sleeps)
    | _, _ => (.ok "", sleeps)

/-! ## ResultCache (`cache_text_result`, `ai_word_utils.py` 15-50) -/

/-- The text fingerprint `f"{len(raw_text_strip)}_{raw_text_strip[:100]}"`. -/
def text_feature (raw_text : String) : String :=
  let raw_text_strip := pyStrip raw_text
  toString (pyLen raw_text_strip) ++ "_" ++ pyTake raw_text_strip 100

/-- The decorator's module-level `cache` dict: fingerprint ↦ (result,
timestamp), modelled as an insertion-ordered association list (Python dict
semantics). -/
abbrev CacheState := List (String × String × Nat)

/-- Python dict lookup on the association-list model. -/
def dictFind {α : Type} (m : List (String × α)) (k : String) : Option α :=
  (m.find? (fun kv => kv.1 = k)).map (fun kv => kv.2)

/-- Python dict assignment: replace in place if the key exists, else append. -/
def dictSet {α : Type} (m : List (String × α)) (k : String) (v : α) :
    List (String × α) :=
  if m.any (fun kv => kv.1 = k) then
    m.map (fun kv => if kv.1 = k then (k, v) else kv)
  else
    m ++ [(k, v)]

/-- One call through the `cache_text_result(expire_seconds)` wrapper at time
`now` (seconds).  `func` is the wrapped method's behaviour on the given text
(an uncaught exception propagates and nothing is cached).  The third
component records whether `func` was invoked. -/
def cache_text_result (expire_seconds : Nat) (cache : CacheState) (now : Nat)
    (raw_text : String) (func : String → Except PyErr String) :
    Except PyErr String × CacheState × Bool :=
  let feature := text_feature raw_text
  let hit : Option String :=
    match dictFind cache feature with
    | some (cached_result, cached_time) =>
        if now - cached_time < expire_seconds then some cached_result else none
    | none => none
  match hit with
  | some cached_result => (.ok cached_result, cache, false)
  | none =>
    match func raw_text with
    | .error e => (.error e, cache, true)
    | .ok result =>
        let cache' := dictSet cache feature (result, now)
        let cache'' := cache'.filter (fun kv => ¬ (now - kv.2.2 > expire_seconds))
        (.ok result, cache'', true)

/-! ## `AITextProcessor.process_text` (`ai_word_utils.py` 130-205)

`process_text` is decorated by `cache_text_result(30)` over
`retry_on_connection_error(3, 2, "raw_text")`.  The remote completion call
(`client.chat.completions.create` followed by extracting
`response.choices[0].message.content`) is a parameter
`remote : Nat → Except PyErr String` giving, per retry attempt, either the
returned content string or the exception the call raises. -/

/-- Field `self.max_text_length`, fixed to 1000 in `AITextProcessor.__init__`. -/
def max_text_length : Nat := 1000

/-- One execution of the undecorated `process_text` body.  The boolean
records whether the remote completion service was invoked.  The body's own
`try`/`except` catches `Timeout`, `ConnectionError`, `ValueError` and
`AttributeError` (returning the stripped input); other exceptions
propagate. -/
def process_text_attempt (remote : Except PyErr String) (raw_text : String) :
    Except PyErr String × Bool :=
  if pyStrip raw_text = "" then (.ok "", false)
  else
    let raw_text_strip := pyStrip raw_text
    if pyLen raw_text_strip > max_text_length then (.ok raw_text_strip, false)
    else
      match remote with
      | .ok content =>
          let processed_text := pyStrip content
          if processed_text = "" then
            -- `raise ValueError(...)`, caught by the `(ValueError, AttributeError)` clause
            (.ok raw_text_strip, true)
          else (.ok processed_text, true)
      | .error (.timeout _) => (.ok raw_text_strip, true)
      | .error (.connErr _) => (.ok raw_text_strip, true)
      | .error (.valueError _) => (.ok raw_text_strip, true)
      | .error (.attributeError _) => (.ok raw_text_strip, true)
      | .error (.other m) => (.error (.other m), true)

/-- Decorator `retry_on_connection_error(max_retries=3, backoff_factor=2,
fallback_return="raw_text")` applied to `process_text`, with remote-invocation
tracking threaded through the loop. -/
def process_text_withRetry (max_retries backoff_factor : Nat)
    (remote : Nat → Except PyErr String) (raw_text : String) :
    Except PyErr String × Bool :=
  go max_retries 0 1 false
where
  go : Nat → Nat → Nat → Bool → Except PyErr String × Bool
    | 0, _, _, invoked =>
      -- fallback: fallback_return == "raw_text" and args is non-empty
      (.ok (pyStrip raw_text), invoked)
    | remaining + 1, attempt, wait_time, invoked =>
      match process_text_attempt (remote attempt) raw_text with
      | (.ok v, inv) => (.ok v, invoked || inv)
      | (.error e, inv) =>
        if e.isTransient then
          if attempt < max_retries - 1 then
            go remaining (attempt + 1) (wait_time * backoff_factor) (invoked || inv)
          else
            go remaining (attempt + 1) wait_time (invoked || inv)
        else
          (.error e, invoked || inv)

/-- The full decorated `process_text` call: `cache_text_result(30)` around
the retry-wrapped body, at time `now` with cache state `cache`.  Returns
(result, new cache state, whether the remote service was invoked). -/
def process_text (cache : CacheState) (now : Nat)
    (remote : Nat → Except PyErr String) (raw_text : String) :
    Except PyErr String × CacheState × Bool :=
  let feature := text_feature raw_text
  let hit : Option String :=
    match dictFind cache feature with
    | some (cached_result, cached_time) =>
        if now - cached_time < 30 then some cached_result else none
    | none => none
  match hit with
  | some cached_result => (.ok cached_result, cache, false)
  | none =>
    match process_text_withRetry 3 2 remote raw_text with
    | (.ok result, inv) =>
        let cache' := dictSet cache feature (result, now)
        let cache'' := cache'.filter (fun kv => ¬ (now - kv.2.2 > 30))
        (.ok result, cache'', inv)
    | (.error e, inv) => (.error e, cache, inv)

/-! ## GenerationEngine — Sequential strategy
(`AITextProcessor.generate_from_template`, `ai_word_utils.py` 225-264)

The per-node primitive `self._generate_section_content(section, outline,
source)` (already wrapped by `retry_on_connection_error` with the default
empty-string fallback) is abstracted as `gen : Section → Except PyErr String`:
it returns the generated content, `""` on too-short output or exhausted
transient errors, and raises any other exception. -/

mutual

/-- Body of the `for section in sections` loop of the nested
`process_sections` for a single section: generate, record when non-empty,
then recurse into the subsections (`if section.subsections:`). -/
def process_section_one (gen : Section → Except PyErr String)
    (generated_content : List (String × String)) :
    Section → Except PyErr (List (String × String))
  | .mk i t ty w r subs b o p => do
    let s : Section := .mk i t ty w r subs b o p
    let section_content ← gen s
    let generated_content :=
      if section_content ≠ "" then dictSet generated_content i section_content
      else generated_content
    if subs.isEmpty then pure generated_content
    else process_sections gen generated_content subs

/-- The recursive `process_sections` helper of `generate_from_template`. -/
def process_sections (gen : Section → Except PyErr String)
    (generated_content : List (String × String)) :
    List Section → Except PyErr (List (String × String))
  | [] => pure generated_content
  | s :: rest => do
    let generated_content ← process_section_one gen generated_content s
    process_sections gen generated_content rest

end

/-- Method `generate_from_template` (Sequential strategy): depth-first pre-order
walk recording each node's non-empty content, keyed by section id.  Any
uncaught exception from the per-node primitive propagates. -/
def generate_from_template (gen : Section → Except PyErr String)
    (template : DocumentTemplate) : Except PyErr (List (String × String)) :=
  process_sections gen [] template.sections

/-! ## GenerationEngine — Batch strategy
(`AITextProcessor.generate_from_template_batch`, `ai_word_utils.py` 266-368)

The nested `assign_sections` function assigns `current_section` inside its
own body, which under Python scoping makes `current_section` a *local*
variable of every invocation, unbound on entry; `current_content` is only
read (never assigned), so it refers to the enclosing empty list, which no
statement ever appends to.  The model makes the local-variable rule
explicit. -/

/-- A Python local variable slot: reading an `unbound` slot raises
`UnboundLocalError`. -/
inductive PyLocal (α : Type) where
  | unbound
  | bound (v : α)
deriving Repr

/-- Message of the `UnboundLocalError` raised by reading a local variable
before its first assignment. -/
def unboundLocalMsg : String :=
  "UnboundLocalError: local variable 'current_section' referenced before assignment"

/-- Reading a Python local variable slot. -/
def readLocal {α : Type} : PyLocal α → Except PyErr α
  | .unbound => .error (.other unboundLocalMsg)
  | .bound v => .ok v

mutual

/-- One invocation of the nested `assign_sections(sections)`: its own
`current_section` local starts unbound; `current_content` (the enclosing
shared list) and `generated_content` (the enclosing shared dict) are
threaded as state.  After the loop, the trailing
`if current_section and current_content:` reads the local again. -/
def assign_sections (current_content : List String)
    (generated_content : List (String × String)) (sections : List Section) :
    Except PyErr (List String × List (String × String)) := do
  let (cs, current_content, generated_content) ←
    assign_loop PyLocal.unbound current_content generated_content sections
  let c ← readLocal cs
  -- a TemplateSection instance is always truthy
  if current_content.isEmpty then
    pure (current_content, generated_content)
  else
    pure (current_content,
      dictSet generated_content c.id (pyJoin "\n" current_content))

/-- The `for section in sections` loop of `assign_sections`.  The condition
`if current_section and current_content:` evaluates `current_section` first
(short-circuit `and`), so the local is read before anything else. -/
def assign_loop (cs : PyLocal Section) (current_content : List String)
    (generated_content : List (String × String)) :
    List Section →
    Except PyErr (PyLocal Section × List String × List (String × String))
  | [] => pure (cs, current_content, generated_content)
  | .mk i t ty w r subs b o p :: rest => do
    let c ← readLocal cs
    let (current_content, generated_content) :=
      if current_content.isEmpty then (current_content, generated_content)
      else
        -- record, log, then current_content.clear()
        ([], dictSet generated_content c.id (pyJoin "\n" current_content))
    let cs := PyLocal.bound (Section.mk i t ty w r subs b o p)
    let (current_content, generated_content) ←
      if subs.isEmpty then pure (current_content, generated_content)
      else assign_sections current_content generated_content subs
    assign_loop cs current_content generated_content rest

end

/-- Method `generate_from_template_batch`: one remote call for the whole template
(`batchRemote` models `response.choices[0].message.content.strip()`,
returning the payload or raising), then `assign_sections` splits it; on any
exception the strategy falls back wholesale to `generate_from_template`. -/
def generate_from_template_batch (gen : Section → Except PyErr String)
    (batchRemote : Except PyErr String) (template : DocumentTemplate) :
    Except PyErr (List (String × String)) :=
  let attempt : Except PyErr (List (String × String)) := do
    let _content ← batchRemote
    -- current_section = None ; current_content = [] in the enclosing scope
    let (_, generated_content) ← assign_sections [] [] template.sections
    pure generated_content
  match attempt with
  | .ok generated_content => .ok generated_content
  | .error _ => generate_from_template gen template

/-! ## GenerationEngine — Parallel strategy
(`AITextProcessor.generate_from_template_parallel`, `ai_word_utils.py`
370-454)

The thread pool completes tasks in a nondeterministic order; the collection
loop (`for future in as_completed(...)`) is therefore modelled as a fold
over an arbitrary permutation `order` of the pre-order flattening
`flattenSections template.sections`.  `process_single_section` catches every
exception of the per-node primitive, so the engine itself never raises —
reflected by the model being a total function into a plain result map. -/

/-- String rendering `str(e)` of a caught exception. -/
def PyErr.str : PyErr → String
  | .connErr m => m
  | .timeout m => m
  | .valueError m => m
  | .attributeError m => m
  | .other m => m

/-- The nested `process_single_section(section)` worker: returns
`(section.id, content, section.title, error)` and never raises. -/
def process_single_section (gen : Section → Except PyErr String) (s : Section) :
    String × String × String × Option String :=
  match gen s with
  | .ok section_content =>
      if section_content ≠ "" then (s.id, section_content, s.title, none)
      else (s.id, "", s.title, some "生成内容为空")
  | .error e => (s.id, "", s.title, some e.str)

/-- One iteration of the fan-in loop (`for future in as_completed(...)`):
a failed task is logged and skipped, a successful non-empty content is
recorded keyed by section id. -/
def parallel_step (gen : Section → Except PyErr String)
    (generated_content : List (String × String)) (s : Section) :
    List (String × String) :=
  let r := process_single_section gen s
  match r.2.2.2 with
  | some _ => generated_content
  | none =>
      if r.2.1 ≠ "" then dictSet generated_content r.1 r.2.1
      else generated_content

/-- The fan-in loop over all completed tasks. -/
def collect_parallel_results (gen : Section → Except PyErr String)
    (order : List Section) : List (String × String) :=
  order.foldl (parallel_step gen) []

/-- Method `generate_from_template_parallel`, parameterized by the completion order
`order` of the submitted tasks (a permutation of the pre-order section
list). -/
def generate_from_template_parallel (gen : Section → Except PyErr String)
    (_template : DocumentTemplate) (order : List Section) :
    List (String × String) :=
  collect_parallel_results gen order

/-! ## PlacementResolver (`ImageReinsertionStrategy`, `image_tracker.py`
246-347)

Scores are modelled over `ℚ` (`0.5`, `0.5`, `0.1` per keyword); the claims
in scope only distinguish zero from positive scores, where float and
rational arithmetic agree. -/

/-- The image-context dictionary built by
`DocumentImageTracker.extract_images_with_context`. -/
structure ImageMetadata where
  image_path : String
  paragraph_index : Nat
  preceding_text : String
  following_text : String
  paragraph_text : String
deriving Repr

/-- Scoring `ImageReinsertionStrategy._calculate_relevance_score`: +0.5 if the
section title (lower-cased) occurs in the preceding text, +0.5 for the
following text, +0.1 per whitespace-separated requirements keyword found in
the image's own paragraph text. -/
def calculate_relevance_score (image_metadata : ImageMetadata) (s : Section) : ℚ :=
  let score : ℚ := 0
  let score := score +
    (if pyContains (pyLower image_metadata.preceding_text) (pyLower s.title)
     then 1/2 else 0)
  let score := score +
    (if pyContains (pyLower image_metadata.following_text) (pyLower s.title)
     then 1/2 else 0)
  score +
    (match s.requirements with
     | some req =>
        -- `if hasattr(section, 'requirements') and section.requirements:`
        if req = "" then 0
        else ((pySplitWs req).filter
          (fun keyword =>
            pyContains (pyLower image_metadata.paragraph_text)
              (pyLower keyword))).length * (1/10 : ℚ)
     | none => 0)

/-- Resolver `ImageReinsertionStrategy.find_best_insertion_position`: best positive
keyword score over the *top-level* `template.sections` (strict improvement,
so first-in-order wins ties), then the three-tier fallback chain over the
generated-content map and the section list. -/
def find_best_insertion_position (image_metadata : ImageMetadata)
    (generated_sections : List (String × String))
    (template : DocumentTemplate) : Option String × String :=
  let folded := template.sections.foldl
    (fun (best : Option Section × ℚ) s =>
      let score := calculate_relevance_score image_metadata s
      if score > best.2 then (some s, score) else best)
    ((none : Option Section), (0 : ℚ))
  let fallbacks : Option String × String :=
    match generated_sections.find? (fun kv => 100 < pyLen (pyStrip kv.2)) with
    | some kv => (some kv.1, "end")
    | none =>
      match generated_sections.getLast? with
      | some kv => (some kv.1, "end")
      | none =>
        match template.sections.head? with
        | some s => (some s.id, "end")
        | none => (none, "end")
  match folded with
  | (some best_section, best_score) =>
      if best_score > 0 then (some best_section.id, "end") else fallbacks
  | (none, _) => fallbacks

/-! ## TemplateValidator (`template_validator.py`) -/

/-- Check `TemplateValidator.validate_template_id`: full match of
`^[a-zA-Z0-9_-]+$`. -/
def validate_template_id (template_id : String) : Bool :=
  ¬ template_id.data.isEmpty ∧
    template_id.data.all (fun c => c.isAlphanum ∨ c = '_' ∨ c = '-')

mutual

/-- Check `TemplateValidator.validate_section`: required-field, word-count and
list-section checks, plus the recursive subsection walk.  The
`isinstance` checks can never fire in the typed model and are omitted. -/
def validate_section : Section → List String
  | .mk id title ty wc _req subs bp _o _p =>
    ((if id = "" then ["Section must have a valid 'id' string"] else []) ++
     (if title = "" then ["Section must have a valid 'title' string"] else []) ++
     (match wc with
      | some w =>
        (if w < 0 then
          ["Section '" ++ id ++ "': word_count must be a positive integer"]
         else []) ++
        (if w > 10000 then
          ["Section '" ++ id ++ "': word_count too large (max 10000)"]
         else [])
      | none => []) ++
     (if ty = SectionType.list ∧ (bp = none ∨ bp = some []) then
        ["Section '" ++ id ++ "': list type sections must have bullet_points"]
      else [])) ++
    validate_subsections id 0 subs

/-- The `for i, subsection in enumerate(section.subsections)` loop of
`validate_section`, prefixing nested errors. -/
def validate_subsections (id : String) (i : Nat) : List Section → List String
  | [] => []
  | s :: rest =>
    (validate_section s).map
      (fun e =>
        "Section '" ++ id ++ "' subsection " ++ toString (i + 1) ++ ": " ++ e) ++
    validate_subsections id (i + 1) rest

end

/-- The `for i, section in enumerate(template.sections)` loop of
`validate_template`, prefixing per-section errors. -/
def validate_template_sections (i : Nat) : List Section → List String
  | [] => []
  | s :: rest =>
    (validate_section s).map
      (fun e =>
        "Section " ++ toString (i + 1) ++ " ('" ++ s.id ++ "'): " ++ e) ++
    validate_template_sections (i + 1) rest

/-- Check `TemplateValidator.validate_template`: template-level checks; note that
no check compares section identifiers against each other. -/
def validate_template (template : DocumentTemplate) : List String :=
  (if ¬ validate_template_id template.id then
    ["Invalid template ID: '" ++ template.id ++
      "'. Only alphanumeric, underscores, and hyphens allowed"]
   else []) ++
  (if template.name = "" then ["Template must have a valid 'name' string"] else []) ++
  (if template.description = "" then
    ["Template must have a valid 'description' string"] else []) ++
  (if template.category = "" then
    ["Template must have a valid 'category' string"] else []) ++
  (if template.sections.isEmpty then
    ["Template must have at least one section"]
   else
    (if template.sections.length > 50 then
      ["Template has too many sections (" ++ toString template.sections.length ++
        "), max 50"]
     else []) ++
    validate_template_sections 0 template.sections) ++
  (match template.total_word_count with
   | some w =>
     (if w < 0 then ["total_word_count must be a positive integer"] else []) ++
     (if w > 100000 then ["total_word_count too large (max 100000)"] else [])
   | none => [])

/-- The `collect_section_ids` walk of `validate_template_consistency`:
every identifier of the tree, in pre-order. -/
def collect_section_ids (template : DocumentTemplate) : List String :=
  (flattenSections template.sections).map Section.id

/-- The duplicate-identifier list
`[sid for sid in set(section_ids) if section_ids.count(sid) > 1]`
(the iteration order of a Python `set` is unspecified; membership is what
the claims use). -/
def duplicate_ids (template : DocumentTemplate) : List String :=
  let section_ids := collect_section_ids template
  section_ids.dedup.filter (fun sid => section_ids.count sid > 1)

/-- The `if section.word_count:` accumulation of
`validate_template_consistency` (truthiness: non-`None` and non-zero). -/
def collect_word_counts (template : DocumentTemplate) : List Int :=
  (flattenSections template.sections).filterMap
    (fun s => match s.word_count with
      | some w => if w = 0 then none else some w
      | none => none)

/-- Check `TemplateValidator.validate_template_consistency`: duplicate-identifier
warning plus the word-count sanity warnings (never errors). -/
def validate_template_consistency (template : DocumentTemplate) : List String :=
  (if (duplicate_ids template).isEmpty then []
   else ["Duplicate section IDs found: " ++ pyJoin ", " (duplicate_ids template)]) ++
  (match template.total_word_count with
   | some w =>
     -- `if template.total_word_count and template.sections:`
     if w = 0 ∨ template.sections.isEmpty then []
     else
       let total_estimated := (collect_word_counts template).sum
       if (total_estimated : ℚ) > (w : ℚ) * (3/2 : ℚ) then
         ["Total section word counts (" ++ toString total_estimated ++
           ") significantly exceed template total (" ++ toString w ++ ")"]
       else if (total_estimated : ℚ) < (w : ℚ) * (1/2 : ℚ) then
         ["Total section word counts (" ++ toString total_estimated ++
           ") significantly less than template total (" ++ toString w ++ ")"]
       else []
   | none => [])

/-! ## DocumentReconstructor (`AIWordFormatter._process_with_ai`,
`word_formatter.py` 375-477)

Original paragraphs are observed through their raw XML (`para._element.xml`)
and visible text (`para.text`); the rebuilt document is a list of abstract
output paragraphs describing exactly the python-docx calls the code makes
(`add_paragraph`, `add_run().add_picture(...)`, the `"[图片]"` fallback run).
The remote `self.ai_processor.process_text(merged_text)` call is a
parameter giving its outcome; `picOk` tells whether `add_picture` succeeds
on a given extracted file. -/

/-- An original paragraph: raw markup and visible text. -/
structure Paragraph where
  xml : String
  text : String
deriving Repr

/-- The image-detection test of `_process_with_ai` (five markup
patterns). -/
def wf_has_image (para : Paragraph) : Bool :=
  pyContains para.xml "<w:drawing>" ∨
  pyContains para.xml "<pic:pic>" ∨
  pyContains para.xml "<v:shape" ∨
  pyContains para.xml "<v:image" ∨
  pyContains para.xml "<w:pict>"

/-- An output paragraph of the rebuilt document: a centred picture paragraph
built from an extracted image file at the configured display size, the
`"[图片]"` placeholder when `add_picture` fails, a styled text paragraph, or
an empty paragraph. -/
inductive NewParagraph where
  | picture (path : String) (width height : ℚ)
  | pictureFallback
  | text (content : String)
  | blank
deriving Repr

/-- The classification loop of `_process_with_ai`
(`for idx, para in enumerate(original_paragraphs)`), at current index `idx`:
returns (image-paragraph indices, stripped pure texts, text-paragraph
indices), each in ascending document order. -/
def classify_go (idx : Nat) : List Paragraph → List Nat × List String × List Nat
  | [] => ([], [], [])
  | para :: rest =>
    let r := classify_go (idx + 1) rest
    let para_text := pyStrip para.text
    if wf_has_image para then (idx :: r.1, r.2.1, r.2.2)
    else if para_text ≠ "" then (r.1, para_text :: r.2.1, idx :: r.2.2)
    else r

/-- Classification of the whole paragraph list. -/
def classify_paragraphs (paras : List Paragraph) :
    List Nat × List String × List Nat :=
  classify_go 0 paras

/-- The text-block computation of `_process_with_ai`: merge the pure texts,
run them through `process_text` (outcome `processTextResult`), fall back to
the raw texts on an exception or an empty/whitespace reply, else split on
blank lines, strip and drop empties. -/
def processed_text_blocks (pure_texts : List String)
    (processTextResult : Except PyErr String) : List String :=
  if pure_texts.isEmpty then []
  else
    match processTextResult with
    | .ok processed_text =>
      if pyStrip processed_text = "" then pure_texts
      else ((pySplitNlNl processed_text).map pyStrip).filter (fun p => p ≠ "")
    | .error _ => pure_texts

/-- The document-rebuild loop of `_process_with_ai`: walk the original
paragraphs in order keeping the image cursor `img_idx` and text cursor
`text_idx`; after the walk, surplus generated blocks are appended.  On an
`add_picture` failure `img_idx` is *not* advanced (the increment sits after
the call inside the `try`). -/
def rebuild_paragraphs (image_paths : List String) (picOk : String → Bool)
    (image_width image_height : ℚ) (image_para_indices text_para_indices : List Nat)
    (blocks : List String) :
    Nat → Nat → Nat → List Paragraph → List NewParagraph
  | _, _, text_idx, [] => ((blocks.drop text_idx).map NewParagraph.text)
  | idx, img_idx, text_idx, _ :: rest =>
    if image_para_indices.contains idx ∧ img_idx < image_paths.length then
      let path := image_paths.getD img_idx ""
      if picOk path then
        NewParagraph.picture path image_width image_height ::
          rebuild_paragraphs image_paths picOk image_width image_height
            image_para_indices text_para_indices blocks (idx + 1) (img_idx + 1)
            text_idx rest
      else
        NewParagraph.pictureFallback ::
          rebuild_paragraphs image_paths picOk image_width image_height
            image_para_indices text_para_indices blocks (idx + 1) img_idx
            text_idx rest
    else if text_para_indices.contains idx ∧ text_idx < blocks.length then
      NewParagraph.text (blocks.getD text_idx "") ::
        rebuild_paragraphs image_paths picOk image_width image_height
          image_para_indices text_para_indices blocks (idx + 1) img_idx
          (text_idx + 1) rest
    else
      NewParagraph.blank ::
        rebuild_paragraphs image_paths picOk image_width image_height
          image_para_indices text_para_indices blocks (idx + 1) img_idx
          text_idx rest

/-- Method `AIWordFormatter._process_with_ai`: classification, AI text processing
with fallback, and structure-preserving rebuild.  `image_paths` are the
files extracted from the archive by `_extract_images_from_docx`. -/
def process_with_ai (image_paths : List String) (picOk : String → Bool)
    (image_width image_height : ℚ) (paras : List Paragraph)
    (processTextResult : Except PyErr String) : List NewParagraph :=
  let c := classify_paragraphs paras
  let blocks := processed_text_blocks c.2.1 processTextResult
  rebuild_paragraphs image_paths picOk image_width image_height c.1 c.2.2
    blocks 0 0 0 paras

/-- All per-section checks of `TemplateValidator.validate_section` pass for
a single node (used to state template well-formedness apart from
identifier uniqueness). -/
def section_fields_valid (s : Section) : Prop :=
  s.id ≠ "" ∧ s.title ≠ "" ∧
  (∀ w, s.word_count = some w → 0 ≤ w ∧ w ≤ 10000) ∧
  (s.sectionType = SectionType.list →
    s.bullet_points ≠ none ∧ s.bullet_points ≠ some [])

/-!
# Theorems
-/

/-! ## Association-list (Python dict) lemmas -/

theorem dictFind_nil {α : Type} (k : String) :
    dictFind ([] : List (String × α)) k = none := rfl

theorem dictFind_map_replace_self {α : Type} (k : String) (v : α) :
    ∀ m : List (String × α), m.any (fun kv => kv.1 = k) = true →
      dictFind (m.map (fun kv => if kv.1 = k then (k, v) else kv)) k = some v := by
  intro m
  induction m with
  | nil => intro h; simp at h
  | cons kv rest ih =>
    intro hany
    by_cases hk : kv.1 = k
    · simp [dictFind, List.find?_cons, hk]
    · have hrest : rest.any (fun kv => kv.1 = k) = true := by
        rcases List.any_eq_true.mp hany with ⟨x, hx, hxk⟩
        rcases List.mem_cons.mp hx with h1 | h2
        · exact absurd (by simpa [h1] using hxk) hk
        · exact List.any_eq_true.mpr ⟨x, h2, hxk⟩
      simpa [dictFind, List.find?_cons, hk] using ih hrest

theorem dictFind_map_replace_ne {α : Type} (k k' : String) (v : α)
    (h : k' ≠ k) :
    ∀ m : List (String × α),
      dictFind (m.map (fun kv => if kv.1 = k then (k, v) else kv)) k'
        = dictFind m k' := by
  intro m
  induction m with
  | nil => rfl
  | cons kv rest ih =>
    by_cases hk : kv.1 = k
    · have hk' : kv.1 ≠ k' := by rw [hk]; exact fun c => h c.symm
      simpa [dictFind, List.find?_cons, hk, Ne.symm h, hk'] using ih
    · by_cases hkk' : kv.1 = k'
      · simp [dictFind, List.find?_cons, hk, hkk', h]
      · simpa [dictFind, List.find?_cons, hk, hkk'] using ih

theorem dictFind_eq_none_of_not_any {α : Type} (k : String) :
    ∀ m : List (String × α), m.any (fun kv => kv.1 = k) = false →
      dictFind m k = none := by
  intro m
  induction m with
  | nil => intro _; rfl
  | cons kv rest ih =>
    intro hany
    simp only [List.any_cons, Bool.or_eq_false_iff] at hany
    have hk : kv.1 ≠ k := by simpa using hany.1
    simpa [dictFind, List.find?_cons, hk] using ih hany.2

theorem dictFind_dictSet_self {α : Type} (m : List (String × α)) (k : String)
    (v : α) : dictFind (dictSet m k v) k = some v := by
  unfold dictSet
  by_cases hany : m.any (fun kv => kv.1 = k) = true
  · rw [if_pos hany]
    exact dictFind_map_replace_self k v m hany
  · rw [if_neg hany]
    have hall : ∀ x ∈ m, ¬ (x.1 = k) := by
      intro x hx hxk
      exact hany (List.any_eq_true.mpr ⟨x, hx, by simpa using hxk⟩)
    have hfind : List.find? (fun kv => kv.1 = k) m = none :=
      List.find?_eq_none.mpr (fun x hx => by simpa using hall x hx)
    simp [dictFind, List.find?_append, hfind, List.find?_cons]

theorem dictFind_dictSet_ne {α : Type} (m : List (String × α)) (k k' : String)
    (v : α) (h : k' ≠ k) : dictFind (dictSet m k v) k' = dictFind m k' := by
  unfold dictSet
  by_cases hany : m.any (fun kv => kv.1 = k) = true
  · rw [if_pos hany]
    exact dictFind_map_replace_ne k k' v h m
  · rw [if_neg hany]
    unfold dictFind
    rw [List.find?_append]
    have htail : List.find? (fun kv => kv.1 = k') [(k, v)] = none := by
      simp [List.find?_cons, Ne.symm h]
    rw [htail]
    rcases hfind : List.find? (fun kv => kv.1 = k') m with _ | x <;> simp

/-! ## Claim C3 — cache hit within the TTL -/

/-- C3: for every input text and compute function, calling the cache-wrapped
operation twice within the 30-second TTL with inputs producing the identical
fingerprint (trimmed length plus first 100 characters of the trimmed input)
invokes the underlying compute function exactly once: the first call invokes
it, the second returns the cached result without invoking it. -/
theorem claim_C3 (t1 t2 : Nat) (in1 in2 : String) (compute : String → String)
    (hfeat : text_feature in1 = text_feature in2)
    (_h12 : t1 ≤ t2) (httl : t2 - t1 < 30) :
    (cache_text_result 30 [] t1 in1 (fun s => .ok (compute s))).2.2 = true ∧
    (cache_text_result 30
        (cache_text_result 30 [] t1 in1 (fun s => .ok (compute s))).2.1
        t2 in2 (fun s => .ok (compute s))).2.2 = false ∧
    (cache_text_result 30 [] t1 in1 (fun s => .ok (compute s))).1
      = .ok (compute in1) ∧
    (cache_text_result 30
        (cache_text_result 30 [] t1 in1 (fun s => .ok (compute s))).2.1
        t2 in2 (fun s => .ok (compute s))).1 = .ok (compute in1) := by
  have hfirst :
      cache_text_result 30 [] t1 in1 (fun s => .ok (compute s))
        = (.ok (compute in1), [(text_feature in1, compute in1, t1)], true) := by
    simp [cache_text_result, dictFind, dictSet, Nat.sub_self]
  have hsecond :
      cache_text_result 30 [(text_feature in1, compute in1, t1)] t2 in2
          (fun s => .ok (compute s))
        = (.ok (compute in1), [(text_feature in1, compute in1, t1)], false) := by
    simp [cache_text_result, dictFind, List.find?_cons, ← hfeat, httl]
  rw [hfirst]
  exact ⟨rfl, by rw [hsecond], rfl, by rw [hsecond]⟩

/-- Witness for C3 at a concrete input. -/
theorem claim_C3_witness :
    text_feature "ab" = text_feature "ab" ∧ (0 : Nat) ≤ 5 ∧ 5 - 0 < 30 ∧
    ((cache_text_result 30 [] 0 "ab" (fun s => .ok (s ++ "!"))).2.2 = true ∧
     (cache_text_result 30
        (cache_text_result 30 [] 0 "ab" (fun s => .ok (s ++ "!"))).2.1
        5 "ab" (fun s => .ok (s ++ "!"))).2.2 = false ∧
     (cache_text_result 30 [] 0 "ab" (fun s => .ok (s ++ "!"))).1
        = .ok ("ab" ++ "!") ∧
     (cache_text_result 30
        (cache_text_result 30 [] 0 "ab" (fun s => .ok (s ++ "!"))).2.1
        5 "ab" (fun s => .ok (s ++ "!"))).1 = .ok ("ab" ++ "!")) :=
  ⟨rfl, by decide, by decide,
    claim_C3 0 5 "ab" "ab" (fun s => s ++ "!") rfl (by decide) (by decide)⟩

/-! ## Claim C4 — retry with `k` transient failures then success -/

theorem retry_loop_succeeds (max_retries backoff_factor : Nat)
    (f : Nat → Except PyErr String) (v : String) :
    ∀ (k attempt wait_time : Nat) (sleeps : List Nat),
      attempt + k < max_retries →
      (∀ j, j < k → ∃ e, f (attempt + j) = .error e ∧ e.isTransient = true) →
      f (attempt + k) = .ok v →
      retry_loop max_retries backoff_factor f (max_retries - attempt) attempt
          wait_time sleeps
        = (.returned v,
           sleeps ++ (List.range k).map (fun i => wait_time * backoff_factor ^ i)) := by
  intro k
  induction k with
  | zero =>
    intro attempt wait_time sleeps hlt _hfail hsucc
    obtain ⟨r, hr⟩ : ∃ r, max_retries - attempt = r + 1 := ⟨max_retries - attempt - 1, by omega⟩
    rw [hr]
    simp only [retry_loop]
    rw [show attempt + 0 = attempt from rfl] at hsucc
    rw [hsucc]
    simp
  | succ k ih =>
    intro attempt wait_time sleeps hlt hfail hsucc
    obtain ⟨r, hr⟩ : ∃ r, max_retries - attempt = r + 1 := ⟨max_retries - attempt - 1, by omega⟩
    rw [hr]
    simp only [retry_loop]
    obtain ⟨e, he, het⟩ := hfail 0 (Nat.succ_pos k)
    rw [show attempt + 0 = attempt from rfl] at he
    rw [he]
    simp only [het, if_true]
    rw [if_pos (show attempt < max_retries - 1 by omega)]
    have hrr : r = max_retries - (attempt + 1) := by omega
    rw [hrr]
    rw [ih (attempt + 1) (wait_time * backoff_factor) (sleeps ++ [wait_time])
      (by omega)
      (fun j hj => by
        obtain ⟨e', he', het'⟩ := hfail (j + 1) (by omega)
        exact ⟨e', by rw [show attempt + 1 + j = attempt + (j + 1) by omega]; exact he', het'⟩)
      (by rw [show attempt + 1 + k = attempt + (k + 1) by omega]; exact hsucc)]
    rw [List.range_succ_eq_map, List.map_cons, List.map_map]
    simp only [pow_zero, mul_one, List.append_assoc, List.singleton_append]
    congr 2
    congr 1
    apply List.map_congr_left
    intro i _
    simp only [Function.comp_apply, pow_succ]
    ring

/-- C4: for every `k < max_retries` and every wrapped compute function that
raises a transient-network error exactly `k` times then succeeds, the
retry-wrapped call returns the success value, sleeps exactly `k` times, and
the sleep durations start at 1 second, are multiplied by the backoff factor
after each failed attempt, and are strictly increasing. -/
theorem claim_C4 (max_retries backoff_factor k : Nat) (fallback_raw : Bool)
    (rawArg : Option String) (f : Nat → Except PyErr String) (v : String)
    (hb : 2 ≤ backoff_factor) (hk : k < max_retries)
    (hfail : ∀ j, j < k → ∃ e, f j = .error e ∧ e.isTransient = true)
    (hsucc : f k = .ok v) :
    retry_on_connection_error max_retries backoff_factor fallback_raw rawArg f
      = (.ok v, (List.range k).map (fun i => backoff_factor ^ i)) ∧
    ((List.range k).map (fun i => backoff_factor ^ i)).length = k ∧
    ((List.range k).map (fun i => backoff_factor ^ i)).Chain' (· < ·) := by
  refine ⟨?_, by simp, ?_⟩
  · have hloop := retry_loop_succeeds max_retries backoff_factor f v k 0 1 []
      (by omega) (fun j hj => by simpa using hfail j hj) (by simpa using hsucc)
    simp only [Nat.sub_zero] at hloop
    unfold retry_on_connection_error
    rw [hloop]
    simp
  · have hpw : ((List.range k).map (fun i => backoff_factor ^ i)).Pairwise (· < ·) := by
      refine (List.pairwise_map).mpr ?_
      refine List.Pairwise.imp_of_mem ?_ (List.pairwise_lt_range k)
      intro a b _ _ hab
      exact Nat.pow_lt_pow_right (by omega) hab
    exact hpw.chain'

/-- Witness for C4: two timeouts then success, with the default
`max_retries = 3`, `backoff_factor = 2`. -/
theorem claim_C4_witness :
    (2 ≤ 2 ∧ 2 < 3) ∧
    retry_on_connection_error 3 2 false none
        (fun j => if j < 2 then .error (.timeout "t") else .ok "done")
      = (.ok "done", (List.range 2).map (fun i => 2 ^ i)) ∧
    ((List.range 2).map (fun i => (2 : Nat) ^ i)).length = 2 ∧
    ((List.range 2).map (fun i => (2 : Nat) ^ i)).Chain' (· < ·) :=
  ⟨⟨le_refl 2, by omega⟩,
    claim_C4 3 2 2 false none
      (fun j => if j < 2 then .error (.timeout "t") else .ok "done") "done"
      (le_refl 2) (by omega)
      (fun j hj => ⟨.timeout "t", by simp [hj], rfl⟩)
      (by simp)⟩

/-! ## Claim C5 — retry exhaustion and the fallback value

The code returns `raw_text.strip()` under the `raw_text` fallback policy
(`ai_word_utils.py` 86-92), not the untouched original input: on an input
with surrounding whitespace the returned value differs from the original. -/

theorem retry_loop_exhausts (max_retries backoff_factor : Nat)
    (f : Nat → Except PyErr String)
    (hfail : ∀ j, j < max_retries → ∃ e, f j = .error e ∧ e.isTransient = true) :
    ∀ (remaining attempt wait_time : Nat) (sleeps : List Nat),
      attempt + remaining ≤ max_retries →
      ∃ sl, retry_loop max_retries backoff_factor f remaining attempt wait_time sleeps
        = (.exhausted, sl) := by
  intro remaining
  induction remaining with
  | zero => intro attempt wait_time sleeps _; exact ⟨sleeps, rfl⟩
  | succ r ih =>
    intro attempt wait_time sleeps hle
    obtain ⟨e, he, het⟩ := hfail attempt (by omega)
    simp only [retry_loop, he, het, if_true]
    by_cases hlast : attempt < max_retries - 1
    · rw [if_pos hlast]
      exact ih (attempt + 1) (wait_time * backoff_factor) (sleeps ++ [wait_time]) (by omega)
    · rw [if_neg hlast]
      exact ih (attempt + 1) wait_time sleeps (by omega)

/-- C5 counterexample: with the `raw_text` fallback policy and the input
`" original "`, an always-timing-out compute function makes the wrapper
return the *stripped* text `"original"`, not the original untouched input
`" original "` the claim asserts. -/
theorem claim_C5_counterexample :
    (retry_on_connection_error 3 2 true (some " original ")
        (fun _ => .error (.timeout "timed out"))).1 ≠ .ok " original " ∧
    (retry_on_connection_error 3 2 true (some " original ")
        (fun _ => .error (.timeout "timed out"))).1 = .ok "original" := by
  decide

/-- C5 (amended): for every wrapped compute function that raises a
transient-network error on every one of the `max_retries` attempts, the
retry-wrapped call never raises and returns the configured fallback value:
under the `raw_text` fallback policy it returns the input with surrounding
whitespace stripped (`raw_text.strip()`), and under the default policy it
returns the empty string. -/
theorem claim_C5_amended (max_retries backoff_factor : Nat) (raw_text : String)
    (rawArg : Option String) (f : Nat → Except PyErr String)
    (hfail : ∀ j, j < max_retries → ∃ e, f j = .error e ∧ e.isTransient = true) :
    (retry_on_connection_error max_retries backoff_factor true (some raw_text) f).1
      = .ok (pyStrip raw_text) ∧
    (retry_on_connection_error max_retries backoff_factor false rawArg f).1
      = .ok "" := by
  obtain ⟨sl, hsl⟩ := retry_loop_exhausts max_retries backoff_factor f hfail
    max_retries 0 1 [] (by omega)
  constructor
  · unfold retry_on_connection_error
    rw [hsl]
  · unfold retry_on_connection_error
    rw [hsl]

/-- Witness for C5 (amended) at a concrete always-failing function. -/
theorem claim_C5_amended_witness :
    (retry_on_connection_error 3 2 true (some " a ")
        (fun _ => .error (.connErr "down"))).1 = .ok (pyStrip " a ") ∧
    (retry_on_connection_error 3 2 false none
        (fun _ => .error (.connErr "down"))).1 = .ok "" :=
  claim_C5_amended 3 2 " a " none (fun _ => .error (.connErr "down"))
    (fun _ _ => ⟨.connErr "down", rfl, rfl⟩)

/-! ## Claim C10 — `process_text` early returns without a remote call -/

/-- C10: for every call to `process_text` whose fingerprint is not in the
cache (in particular on a fresh engine): an empty or whitespace-only input
returns the empty string without invoking the remote completion service,
and an input whose trimmed length exceeds 1000 characters (the fixed
`max_text_length`) returns the trimmed input unchanged, also without
invoking the remote service. -/
theorem claim_C10 (cache : CacheState) (now : Nat)
    (remote : Nat → Except PyErr String) (raw_text : String)
    (hmiss : dictFind cache (text_feature raw_text) = none) :
    (pyStrip raw_text = "" →
      (process_text cache now remote raw_text).1 = .ok "" ∧
      (process_text cache now remote raw_text).2.2 = false) ∧
    (1000 < pyLen (pyStrip raw_text) →
      (process_text cache now remote raw_text).1 = .ok (pyStrip raw_text) ∧
      (process_text cache now remote raw_text).2.2 = false) := by
  constructor
  · intro hempty
    have hattempt : process_text_withRetry 3 2 remote raw_text = (.ok "", false) := by
      simp [process_text_withRetry, process_text_withRetry.go,
        process_text_attempt, hempty]
    constructor <;>
      simp [process_text, hmiss, hattempt]
  · intro hlong
    have hne : ¬ pyStrip raw_text = "" := by
      intro h
      rw [h] at hlong
      simp [pyLen] at hlong
    have hattempt : process_text_withRetry 3 2 remote raw_text
        = (.ok (pyStrip raw_text), false) := by
      simp [process_text_withRetry, process_text_withRetry.go,
        process_text_attempt, hne, max_text_length, hlong]
    constructor <;>
      simp [process_text, hmiss, hattempt]

/-- Witness for C10 at a whitespace-only input on a fresh cache. -/
theorem claim_C10_witness :
    dictFind ([] : CacheState) (text_feature " ") = none ∧
    pyStrip " " = "" ∧
    (process_text [] 0 (fun _ => .ok "reply") " ").1 = .ok "" ∧
    (process_text [] 0 (fun _ => .ok "reply") " ").2.2 = false :=
  ⟨rfl, by decide,
    (claim_C10 [] 0 (fun _ => .ok "reply") " " rfl).1 (by decide)⟩

/-! ## Claim C1 — parallel strategy: per-node failure isolation -/

theorem process_single_section_error (gen : Section → Except PyErr String)
    (s : Section) (e : PyErr) (h : gen s = .error e) :
    process_single_section gen s = (s.id, "", s.title, some e.str) := by
  simp [process_single_section, h]

theorem process_single_section_ok (gen : Section → Except PyErr String)
    (s : Section) (c : String) (h : gen s = .ok c) (hc : c ≠ "") :
    process_single_section gen s = (s.id, c, s.title, none) := by
  simp [process_single_section, h, hc]

theorem parallel_step_of_error (gen : Section → Except PyErr String)
    (acc : List (String × String)) (s : Section) (e : PyErr)
    (h : gen s = .error e) : parallel_step gen acc s = acc := by
  simp [parallel_step, process_single_section_error gen s e h]

theorem parallel_step_of_ok (gen : Section → Except PyErr String)
    (acc : List (String × String)) (s : Section) (c : String)
    (h : gen s = .ok c) (hc : c ≠ "") :
    parallel_step gen acc s = dictSet acc s.id c := by
  simp [parallel_step, process_single_section_ok gen s c h hc, hc]

theorem parallel_step_find_other (gen : Section → Except PyErr String)
    (acc : List (String × String)) (s : Section) (k : String)
    (h : s.id ≠ k) :
    dictFind (parallel_step gen acc s) k = dictFind acc k := by
  rcases hg : gen s with e | c
  · rw [parallel_step_of_error gen acc s e hg]
  · by_cases hc : c = ""
    · subst hc
      simp [parallel_step, process_single_section, hg]
    · rw [parallel_step_of_ok gen acc s c hg hc]
      exact dictFind_dictSet_ne acc s.id k c (Ne.symm h)

theorem parallel_foldl_find_not_mem (gen : Section → Except PyErr String) :
    ∀ (order : List Section) (acc : List (String × String)) (k : String),
      (∀ s ∈ order, s.id ≠ k) →
      dictFind (order.foldl (parallel_step gen) acc) k = dictFind acc k := by
  intro order
  induction order with
  | nil => intro acc k _; rfl
  | cons t rest ih =>
    intro acc k hne
    rw [List.foldl_cons,
      ih (parallel_step gen acc t) k (fun s hs => hne s (List.mem_cons_of_mem t hs)),
      parallel_step_find_other gen acc t k (hne t (List.mem_cons_self t rest))]

theorem parallel_foldl_find_fail (gen : Section → Except PyErr String) :
    ∀ (order : List Section) (acc : List (String × String)) (s : Section)
      (e : PyErr),
      (order.map Section.id).Nodup → s ∈ order → gen s = .error e →
      dictFind (order.foldl (parallel_step gen) acc) s.id = dictFind acc s.id := by
  intro order
  induction order with
  | nil => intro acc s e _ hmem _; exact absurd hmem (List.not_mem_nil s)
  | cons t rest ih =>
    intro acc s e hnodup hmem hfail
    have hnotin : t.id ∉ rest.map Section.id := (List.nodup_cons.mp hnodup).1
    rcases List.mem_cons.mp hmem with rfl | hrest
    · rw [List.foldl_cons, parallel_step_of_error gen acc s e hfail]
      exact parallel_foldl_find_not_mem gen rest acc s.id
        (fun u hu hui => hnotin (hui ▸ List.mem_map_of_mem Section.id hu))
    · have htne : t.id ≠ s.id := fun h =>
        hnotin (h ▸ List.mem_map_of_mem Section.id hrest)
      rw [List.foldl_cons,
        ih (parallel_step gen acc t) s e (List.nodup_cons.mp hnodup).2 hrest hfail,
        parallel_step_find_other gen acc t s.id htne]

theorem parallel_foldl_find_success (gen : Section → Except PyErr String) :
    ∀ (order : List Section) (acc : List (String × String)) (s : Section)
      (c : String),
      (order.map Section.id).Nodup → s ∈ order → gen s = .ok c → c ≠ "" →
      dictFind (order.foldl (parallel_step gen) acc) s.id = some c := by
  intro order
  induction order with
  | nil => intro acc s c _ hmem _ _; exact absurd hmem (List.not_mem_nil s)
  | cons t rest ih =>
    intro acc s c hnodup hmem hok hc
    have hnotin : t.id ∉ rest.map Section.id := (List.nodup_cons.mp hnodup).1
    rcases List.mem_cons.mp hmem with rfl | hrest
    · rw [List.foldl_cons, parallel_step_of_ok gen acc s c hok hc,
        parallel_foldl_find_not_mem gen rest (dictSet acc s.id c) s.id
          (fun u hu hui => hnotin (hui ▸ List.mem_map_of_mem Section.id hu))]
      exact dictFind_dictSet_self acc s.id c
    · rw [List.foldl_cons]
      exact ih (parallel_step gen acc t) s c (List.nodup_cons.mp hnodup).2 hrest hok hc

/-- C1: for every section tree with identifiers unique across the tree and
every per-node generator that raises on exactly one node `i` while every
other node produces content of at least 50 characters, the parallel strategy
— for every completion order of the submitted tasks — returns a result map
containing the identifier of every succeeding node (with its content) and
omitting exactly node `i`.  No exception propagates out of the engine: the
collection loop absorbs per-task failures, which the model reflects by
`generate_from_template_parallel` being a total function into a plain
result map. -/
theorem claim_C1 (gen : Section → Except PyErr String)
    (template : DocumentTemplate) (order : List Section) (i : Section)
    (e : PyErr)
    (hperm : order.Perm (flattenSections template.sections))
    (hnodup : ((flattenSections template.sections).map Section.id).Nodup)
    (hi : i ∈ flattenSections template.sections)
    (hfail : gen i = .error e)
    (hok : ∀ j ∈ flattenSections template.sections, j.id ≠ i.id →
      ∃ c, gen j = .ok c ∧ 50 ≤ pyLen c) :
    (∀ j ∈ flattenSections template.sections, j.id ≠ i.id →
      ∃ c, gen j = .ok c ∧
        dictFind (generate_from_template_parallel gen template order) j.id
          = some c) ∧
    dictFind (generate_from_template_parallel gen template order) i.id = none := by
  have hnodup' : (order.map Section.id).Nodup :=
    ((hperm.map Section.id).nodup_iff).mpr hnodup
  constructor
  · intro j hj hne
    obtain ⟨c, hc, hlen⟩ := hok j hj hne
    have hcne : c ≠ "" := by
      intro h
      rw [h] at hlen
      simp [pyLen] at hlen
    exact ⟨c, hc,
      parallel_foldl_find_success gen order [] j c hnodup'
        (hperm.mem_iff.mpr hj) hc hcne⟩
  · rw [generate_from_template_parallel, collect_parallel_results,
      parallel_foldl_find_fail gen order [] i e hnodup'
        (hperm.mem_iff.mpr hi) hfail]
    rfl

/-- Witness for C1: a three-node tree (root `a` with nested child `b`, and
sibling root `c`) where the generator raises on node `b` and produces
50-character content elsewhere. -/
theorem claim_C1_witness :
    (∀ j ∈ flattenSections
        [Section.mk "a" "Heading A" .heading none none
          [Section.mk "b" "Sub B" .heading none none [] none false none]
          none false none,
         Section.mk "c" "Heading C" .heading none none [] none false none],
      j.id ≠ (Section.mk "b" "Sub B" .heading none none [] none false none).id →
      ∃ c,
        (fun s => if s.id = "b" then Except.error (PyErr.other "boom")
          else Except.ok "cccccccccccccccccccccccccccccccccccccccccccccccccc") j
          = .ok c ∧
        dictFind
          (generate_from_template_parallel
            (fun s => if s.id = "b" then Except.error (PyErr.other "boom")
              else Except.ok "cccccccccccccccccccccccccccccccccccccccccccccccccc")
            ⟨"t", "n", "d", "cat",
              [Section.mk "a" "Heading A" .heading none none
                [Section.mk "b" "Sub B" .heading none none [] none false none]
                none false none,
               Section.mk "c" "Heading C" .heading none none [] none false none],
              none⟩
            (flattenSections
              [Section.mk "a" "Heading A" .heading none none
                [Section.mk "b" "Sub B" .heading none none [] none false none]
                none false none,
               Section.mk "c" "Heading C" .heading none none [] none false none]))
          j.id = some c) ∧
    dictFind
      (generate_from_template_parallel
        (fun s => if s.id = "b" then Except.error (PyErr.other "boom")
          else Except.ok "cccccccccccccccccccccccccccccccccccccccccccccccccc")
        ⟨"t", "n", "d", "cat",
          [Section.mk "a" "Heading A" .heading none none
            [Section.mk "b" "Sub B" .heading none none [] none false none]
            none false none,
           Section.mk "c" "Heading C" .heading none none [] none false none],
          none⟩
        (flattenSections
          [Section.mk "a" "Heading A" .heading none none
            [Section.mk "b" "Sub B" .heading none none [] none false none]
            none false none,
           Section.mk "c" "Heading C" .heading none none [] none false none]))
      (Section.mk "b" "Sub B" .heading none none [] none false none).id
      = none := by
  refine claim_C1
    (fun s => if s.id = "b" then Except.error (PyErr.other "boom")
      else Except.ok "cccccccccccccccccccccccccccccccccccccccccccccccccc")
    ⟨"t", "n", "d", "cat",
      [Section.mk "a" "Heading A" .heading none none
        [Section.mk "b" "Sub B" .heading none none [] none false none]
        none false none,
       Section.mk "c" "Heading C" .heading none none [] none false none],
      none⟩
    _ (Section.mk "b" "Sub B" .heading none none [] none false none)
    (PyErr.other "boom") (List.Perm.refl _) ?_ ?_ ?_ ?_
  · simp [flattenSections, flattenSection, Section.id]
  · simp [flattenSections, flattenSection]
  · decide
  · intro j hj hne
    simp only [flattenSections, flattenSection, List.cons_append,
      List.nil_append, List.mem_cons, List.not_mem_nil, or_false] at hj
    rcases hj with rfl | rfl | rfl
    · exact ⟨"cccccccccccccccccccccccccccccccccccccccccccccccccc",
        by decide, by decide⟩
    · exact absurd rfl hne
    · exact ⟨"cccccccccccccccccccccccccccccccccccccccccccccccccc",
        by decide, by decide⟩

/-! ## Claim C2 — batch strategy always coincides with the sequential one

Under Python scoping, `current_section` is a local of each
`assign_sections` invocation (it is assigned inside the function body
without a `nonlocal` declaration) and is read — by the loop body's first
statement, or by the trailing `if` when the section list is empty — before
any assignment has executed, so every invocation raises
`UnboundLocalError`; the surrounding `except Exception` then falls back to
the Sequential strategy wholesale. -/

theorem assign_sections_raises :
    ∀ (sections : List Section) (current_content : List String)
      (generated_content : List (String × String)),
      assign_sections current_content generated_content sections
        = .error (.other unboundLocalMsg) := by
  intro sections current_content generated_content
  cases sections with
  | nil =>
    simp [assign_sections, assign_loop, readLocal, Bind.bind, Except.bind,
      pure, Except.pure]
  | cons s rest =>
    cases s
    simp [assign_sections, assign_loop, readLocal, Bind.bind, Except.bind,
      pure, Except.pure]

/-- C2: for every template, per-node generator and remote-call behaviour,
`generate_from_template_batch` returns exactly the result of
`generate_from_template` (the Sequential strategy) on the same arguments —
the batch path always falls back wholesale — and the batch path's own
`assign_sections` never records any per-section content (every invocation
raises before reaching a recording statement). -/
theorem claim_C2 (gen : Section → Except PyErr String)
    (batchRemote : Except PyErr String) (template : DocumentTemplate) :
    generate_from_template_batch gen batchRemote template
      = generate_from_template gen template ∧
    (∀ (current_content : List String)
       (generated_content : List (String × String)),
      assign_sections current_content generated_content template.sections
        = .error (.other unboundLocalMsg)) := by
  constructor
  · unfold generate_from_template_batch
    cases batchRemote with
    | error e => rfl
    | ok content =>
      simp [Bind.bind, Except.bind, assign_sections_raises template.sections]
  · intro cc gc
    exact assign_sections_raises template.sections cc gc

/-! ## Claim C6 — the fallback chain never returns null on a non-empty tree -/

/-- C6: for every image metadata record, generation-result map and template
whose section list is non-empty, `find_best_insertion_position` returns a
non-null section identifier — every branch (positive score, long-content
fallback, last-key fallback, first-section last resort) yields `some`. -/
theorem claim_C6 (image_metadata : ImageMetadata)
    (generated_sections : List (String × String))
    (template : DocumentTemplate) (hne : template.sections ≠ []) :
    (find_best_insertion_position image_metadata generated_sections template).1
      ≠ none := by
  simp only [find_best_insertion_position]
  repeat' split
  all_goals simp_all [List.head?_eq_none_iff]

/-- Witness for C6: single-section template, no signal at all. -/
theorem claim_C6_witness :
    ([Section.mk "only" "Only" .heading none none [] none false none]
      ≠ ([] : List Section)) ∧
    (find_best_insertion_position
      ⟨"p", 0, "", "", ""⟩ []
      ⟨"t", "n", "d", "cat",
        [Section.mk "only" "Only" .heading none none [] none false none],
        none⟩).1 ≠ none :=
  ⟨by simp,
    claim_C6 ⟨"p", 0, "", "", ""⟩ []
      ⟨"t", "n", "d", "cat",
        [Section.mk "only" "Only" .heading none none [] none false none],
        none⟩ (by simp)⟩

/-! ## Claim C7 — title match wins placement, but only for top-level sections

The scoring loop of `find_best_insertion_position` iterates over
`template.sections` only — it never recurses into `subsections` — so a
nested subsection whose title matches is never scored and the claim fails
for nested sections; it holds for top-level sections. -/

theorem calculate_relevance_score_nonneg (img : ImageMetadata) (s : Section) :
    0 ≤ calculate_relevance_score img s := by
  simp only [calculate_relevance_score]
  refine add_nonneg (add_nonneg (add_nonneg ?_ ?_) ?_) ?_
  · norm_num
  · split <;> norm_num
  · split <;> norm_num
  · rcases s.requirements with _ | req
    · norm_num
    · dsimp only
      split
      · norm_num
      · positivity

theorem calculate_relevance_score_pos_of_preceding (img : ImageMetadata)
    (s : Section)
    (hpre : pyContains (pyLower img.preceding_text) (pyLower s.title) = true) :
    0 < calculate_relevance_score img s := by
  have h2 : (0 : ℚ) ≤
      (if pyContains (pyLower img.following_text) (pyLower s.title) = true
       then 1/2 else 0) := by split <;> norm_num
  have h3 : (0 : ℚ) ≤
      (match s.requirements with
       | some req =>
          if req = "" then 0
          else ((pySplitWs req).filter
            (fun keyword =>
              pyContains (pyLower img.paragraph_text)
                (pyLower keyword))).length * (1/10 : ℚ)
       | none => 0) := by
    rcases s.requirements with _ | req
    · norm_num
    · dsimp only
      split
      · norm_num
      · positivity
  simp only [calculate_relevance_score, hpre, if_true]
  linarith

theorem best_fold_keeps (img : ImageMetadata) :
    ∀ (l : List Section) (b : Option Section × ℚ),
      (∀ t ∈ l, calculate_relevance_score img t ≤ b.2) →
      l.foldl
        (fun (best : Option Section × ℚ) s =>
          let score := calculate_relevance_score img s
          if score > best.2 then (some s, score) else best) b = b := by
  intro l
  induction l with
  | nil => intro b _; rfl
  | cons t rest ih =>
    intro b hle
    rw [List.foldl_cons]
    have hstep :
        (let score := calculate_relevance_score img t
         if score > b.2 then (some t, score) else b) = b := by
      have := hle t (List.mem_cons_self t rest)
      simp only [gt_iff_lt, not_lt.mpr this, if_false]
    rw [hstep]
    exact ih b (fun u hu => hle u (List.mem_cons_of_mem t hu))

theorem best_fold_finds (img : ImageMetadata) :
    ∀ (l : List Section) (s : Section),
      s ∈ l →
      (∀ t ∈ l, t ≠ s → calculate_relevance_score img t = 0) →
      0 < calculate_relevance_score img s →
      l.foldl
        (fun (best : Option Section × ℚ) s =>
          let score := calculate_relevance_score img s
          if score > best.2 then (some s, score) else best)
        ((none : Option Section), (0 : ℚ))
        = (some s, calculate_relevance_score img s) := by
  intro l
  induction l with
  | nil => intro s hmem; exact absurd hmem (List.not_mem_nil s)
  | cons t rest ih =>
    intro s hmem hothers hpos
    by_cases hts : t = s
    · subst hts
      rw [List.foldl_cons]
      have hstep :
          (let score := calculate_relevance_score img t
           if score > ((none : Option Section), (0 : ℚ)).2 then (some t, score)
           else ((none : Option Section), (0 : ℚ)))
            = (some t, calculate_relevance_score img t) := by
        simp only [gt_iff_lt, hpos, if_true]
      rw [hstep]
      exact best_fold_keeps img rest (some t, calculate_relevance_score img t)
        (fun u hu => by
          by_cases hut : u = t
          · subst hut; exact le_refl _
          · exact le_of_lt (lt_of_le_of_lt
              (le_of_eq (hothers u (List.mem_cons_of_mem t hu) hut)) hpos))
    · have hs : s ∈ rest := by
        rcases List.mem_cons.mp hmem with h | h
        · exact absurd h.symm hts
        · exact h
      have ht0 : calculate_relevance_score img t = 0 :=
        hothers t (List.mem_cons_self t rest) hts
      rw [List.foldl_cons]
      have hstep :
          (let score := calculate_relevance_score img t
           if score > ((none : Option Section), (0 : ℚ)).2 then (some t, score)
           else ((none : Option Section), (0 : ℚ)))
            = ((none : Option Section), (0 : ℚ)) := by
        simp only [ht0, gt_iff_lt, lt_irrefl, if_false]
      rw [hstep]
      exact ih s hs (fun u hu => hothers u (List.mem_cons_of_mem t hu)) hpos

/-- C7 (amended): for every *top-level* section `s` of the template whose
title (case-insensitively) occurs in the image's preceding-text window,
while every other top-level section scores 0, `find_best_insertion_position`
returns `s`'s identifier.  For nested subsections the scoring loop never
visits them (it iterates over `template.sections` only), so the property
holds only at the top level. -/
theorem claim_C7_amended (image_metadata : ImageMetadata)
    (generated_sections : List (String × String))
    (template : DocumentTemplate) (s : Section)
    (hmem : s ∈ template.sections)
    (hpre : pyContains (pyLower image_metadata.preceding_text)
      (pyLower s.title) = true)
    (hothers : ∀ t ∈ template.sections, t ≠ s →
      calculate_relevance_score image_metadata t = 0) :
    find_best_insertion_position image_metadata generated_sections template
      = (some s.id, "end") := by
  have hpos := calculate_relevance_score_pos_of_preceding image_metadata s hpre
  have hfold := best_fold_finds image_metadata template.sections s hmem hothers hpos
  simp only [find_best_insertion_position, hfold, gt_iff_lt, hpos, if_true]

/-- C7 counterexample: the template's only root section is `s1` ("Alpha")
with nested subsection `s2` ("Beta"); the image's preceding text is exactly
"Beta", no other title occurs anywhere in its context, and the only other
section (`s1`) scores 0 — yet the resolver returns `s1`, not `s2`, because
the scoring loop never visits nested subsections. -/
theorem claim_C7_counterexample :
    (Section.mk "s2" "Beta" .heading none none [] none false none)
      ∈ flattenSections
        [Section.mk "s1" "Alpha" .heading none none
          [Section.mk "s2" "Beta" .heading none none [] none false none]
          none false none] ∧
    pyContains (pyLower "Beta") (pyLower "Beta") = true ∧
    pyContains (pyLower "Beta") (pyLower "Alpha") = false ∧
    pyContains (pyLower "") (pyLower "Alpha") = false ∧
    calculate_relevance_score ⟨"p", 0, "Beta", "", ""⟩
      (Section.mk "s1" "Alpha" .heading none none
        [Section.mk "s2" "Beta" .heading none none [] none false none]
        none false none) = 0 ∧
    find_best_insertion_position ⟨"p", 0, "Beta", "", ""⟩ []
      ⟨"t", "n", "d", "cat",
        [Section.mk "s1" "Alpha" .heading none none
          [Section.mk "s2" "Beta" .heading none none [] none false none]
          none false none], none⟩
      = (some "s1", "end") ∧
    "s1" ≠ "s2" := by
  have h1 : pyContains (pyLower "Beta") (pyLower "Alpha") = false := by decide
  have h2 : pyContains (pyLower "") (pyLower "Alpha") = false := by decide
  have hscore : calculate_relevance_score ⟨"p", 0, "Beta", "", ""⟩
      (Section.mk "s1" "Alpha" .heading none none
        [Section.mk "s2" "Beta" .heading none none [] none false none]
        none false none) = 0 := by
    simp [calculate_relevance_score, Section.title, Section.requirements, h1, h2]
  refine ⟨?_, by decide, h1, h2, hscore, ?_, by decide⟩
  · simp [flattenSections, flattenSection]
  · simp [find_best_insertion_position, hscore, Section.id]

/-- Witness for C7 (amended): a second root section `s2` titled "Beta"
matched by the image's preceding text while the root `s1` scores 0. -/
theorem claim_C7_amended_witness :
    find_best_insertion_position ⟨"p", 0, "Beta", "", ""⟩ []
      ⟨"t", "n", "d", "cat",
        [Section.mk "s1" "Alpha" .heading none none [] none false none,
         Section.mk "s2" "Beta" .heading none none [] none false none],
        none⟩
      = (some (Section.mk "s2" "Beta" .heading none none [] none false
          none).id, "end") := by
  refine claim_C7_amended ⟨"p", 0, "Beta", "", ""⟩ []
    ⟨"t", "n", "d", "cat",
      [Section.mk "s1" "Alpha" .heading none none [] none false none,
       Section.mk "s2" "Beta" .heading none none [] none false none],
      none⟩
    (Section.mk "s2" "Beta" .heading none none [] none false none)
    (by simp) (by decide) ?_
  intro t ht htne
  have h1 : pyContains (pyLower "Beta") (pyLower "Alpha") = false := by decide
  have h2 : pyContains (pyLower "") (pyLower "Alpha") = false := by decide
  rcases List.mem_cons.mp ht with rfl | ht2
  · simp [calculate_relevance_score, Section.title, Section.requirements, h1, h2]
  · rcases List.mem_cons.mp ht2 with rfl | ht3
    · exact absurd rfl htne
    · exact absurd ht3 (List.not_mem_nil t)

/-! ## Claim C8 — reconstruction round-trip

Structure is preserved: a (text, image, text) source with two generated
blocks rebuilds as (text, image, text).  The image paragraph, however, is a
*fresh* paragraph into which the binary extracted from the archive is
re-inserted by `add_picture` at the configured display size — the original
paragraph's markup is never copied (the code only substring-tests it), so
the output cannot be byte-identical to the source markup in general.  The
counterexample below shows the output is invariant under changing the
source image paragraph's markup, which is impossible for a byte-identical
copy. -/

theorem classify_go_congr :
    ∀ (paras1 paras2 : List Paragraph) (idx : Nat),
      paras1.map (fun p => (wf_has_image p, pyStrip p.text))
        = paras2.map (fun p => (wf_has_image p, pyStrip p.text)) →
      classify_go idx paras1 = classify_go idx paras2 := by
  intro paras1
  induction paras1 with
  | nil =>
    intro paras2 idx h
    have : paras2 = [] := by
      cases paras2 with
      | nil => rfl
      | cons q qs => simp at h
    rw [this]
  | cons p rest ih =>
    intro paras2 idx h
    cases paras2 with
    | nil => simp at h
    | cons q qs =>
      simp only [List.map_cons, List.cons.injEq, Prod.mk.injEq] at h
      obtain ⟨⟨himg, htext⟩, htail⟩ := h
      simp only [classify_go, himg, htext, ih qs (idx + 1) htail]

theorem rebuild_paragraphs_congr (image_paths : List String)
    (picOk : String → Bool) (iw ih : ℚ) (imgIdxs textIdxs : List Nat)
    (blocks : List String) :
    ∀ (paras1 paras2 : List Paragraph) (idx img_idx text_idx : Nat),
      paras1.length = paras2.length →
      rebuild_paragraphs image_paths picOk iw ih imgIdxs textIdxs blocks
          idx img_idx text_idx paras1
        = rebuild_paragraphs image_paths picOk iw ih imgIdxs textIdxs blocks
          idx img_idx text_idx paras2 := by
  intro paras1
  induction paras1 with
  | nil =>
    intro paras2 idx img_idx text_idx h
    cases paras2 with
    | nil => rfl
    | cons q qs => simp at h
  | cons p rest ihp =>
    intro paras2 idx img_idx text_idx h
    cases paras2 with
    | nil => simp at h
    | cons q qs =>
      simp only [List.length_cons, Nat.add_right_cancel_iff] at h
      simp only [rebuild_paragraphs]
      by_cases h1 : imgIdxs.contains idx ∧ img_idx < image_paths.length
      · rw [if_pos h1, if_pos h1]
        by_cases h2 : picOk (image_paths.getD img_idx "") = true
        · rw [if_pos h2, if_pos h2, ihp qs (idx + 1) (img_idx + 1) text_idx h]
        · rw [if_neg h2, if_neg h2, ihp qs (idx + 1) img_idx text_idx h]
      · rw [if_neg h1, if_neg h1]
        by_cases h3 : textIdxs.contains idx ∧ text_idx < blocks.length
        · rw [if_pos h3, if_pos h3, ihp qs (idx + 1) img_idx (text_idx + 1) h]
        · rw [if_neg h3, if_neg h3, ihp qs (idx + 1) img_idx text_idx h]

/-- The rebuilt document depends on the original paragraphs only through
their image-detection result and stripped visible text — never through the
markup bytes themselves. -/
theorem process_with_ai_ignores_markup (image_paths : List String)
    (picOk : String → Bool) (iw ih : ℚ) (paras1 paras2 : List Paragraph)
    (processTextResult : Except PyErr String)
    (h : paras1.map (fun p => (wf_has_image p, pyStrip p.text))
      = paras2.map (fun p => (wf_has_image p, pyStrip p.text))) :
    process_with_ai image_paths picOk iw ih paras1 processTextResult
      = process_with_ai image_paths picOk iw ih paras2 processTextResult := by
  have hcl : classify_paragraphs paras1 = classify_paragraphs paras2 :=
    classify_go_congr paras1 paras2 0 h
  have hlen : paras1.length = paras2.length := by
    have := congrArg List.length h
    simpa using this
  unfold process_with_ai
  rw [hcl]
  exact rebuild_paragraphs_congr image_paths picOk iw ih _ _ _ paras1 paras2
    0 0 0 hlen

/-- C8 counterexample: two source documents with (text, image, text)
paragraphs that differ only in the image paragraph's markup bytes produce
the *same* rebuilt document, so the rebuilt image paragraph's markup cannot
be byte-identical to the source's in general. -/
theorem claim_C8_counterexample :
    (Paragraph.mk "<w:p><w:drawing>extentA</w:drawing></w:p>" "").xml
      ≠ (Paragraph.mk "<w:p><w:drawing>extentB</w:drawing></w:p>" "").xml ∧
    process_with_ai ["img_0.png"] (fun _ => true) 6 4
        [⟨"<w:p>one</w:p>", "one"⟩,
         ⟨"<w:p><w:drawing>extentA</w:drawing></w:p>", ""⟩,
         ⟨"<w:p>two</w:p>", "two"⟩] (.ok "A\n\nB")
      = process_with_ai ["img_0.png"] (fun _ => true) 6 4
        [⟨"<w:p>one</w:p>", "one"⟩,
         ⟨"<w:p><w:drawing>extentB</w:drawing></w:p>", ""⟩,
         ⟨"<w:p>two</w:p>", "two"⟩] (.ok "A\n\nB") := by
  constructor
  · decide
  · exact process_with_ai_ignores_markup ["img_0.png"] (fun _ => true) 6 4
      _ _ (.ok "A\n\nB") (by decide)

/-- C8 (amended): a source of exactly 3 paragraphs classified (text, image,
text), with at least one extracted image binary that inserts successfully
and a processed output splitting into exactly 2 text blocks, rebuilds as
exactly 3 paragraphs in order (text, image, text); the image paragraph is a
fresh centred paragraph carrying the extracted binary at the configured
display size (not a byte-identical copy of the source paragraph's
markup). -/
theorem claim_C8_amended (p0 p1 p2 : Paragraph) (path : String)
    (restPaths : List String) (picOk : String → Bool) (iw ih : ℚ)
    (processed b1 b2 : String)
    (h0 : wf_has_image p0 = false) (h0t : pyStrip p0.text ≠ "")
    (h1 : wf_has_image p1 = true)
    (h2 : wf_has_image p2 = false) (h2t : pyStrip p2.text ≠ "")
    (hpic : picOk path = true)
    (hps : pyStrip processed ≠ "")
    (hblocks : ((pySplitNlNl processed).map pyStrip).filter (fun p => p ≠ "")
      = [b1, b2]) :
    process_with_ai (path :: restPaths) picOk iw ih [p0, p1, p2]
        (.ok processed)
      = [.text b1, .picture path iw ih, .text b2] := by
  have hcl : classify_paragraphs [p0, p1, p2]
      = ([1], [pyStrip p0.text, pyStrip p2.text], [0, 2]) := by
    simp [classify_paragraphs, classify_go, h0, h1, h2, h0t, h2t]
  have hblocks2 : ((pySplitNlNl processed).map pyStrip).filter
      (fun p => !decide (p = "")) = [b1, b2] := by
    simpa [ne_eq, decide_not] using hblocks
  have hblocks' : processed_text_blocks [pyStrip p0.text, pyStrip p2.text]
      (.ok processed) = [b1, b2] := by
    simp [processed_text_blocks, hps, hblocks2]
  have hc0 : ([1] : List Nat).contains 0 = false := by decide
  have hc1 : ([1] : List Nat).contains 1 = true := by decide
  have hc2 : ([1] : List Nat).contains 2 = false := by decide
  have ht0 : ([0, 2] : List Nat).contains 0 = true := by decide
  have ht2 : ([0, 2] : List Nat).contains 2 = true := by decide
  unfold process_with_ai
  rw [hcl]
  simp only []
  rw [hblocks']
  simp [rebuild_paragraphs, hc0, hc1, hc2, ht0, ht2, hpic]

/-- Witness for C8 (amended) at a concrete (text, image, text) document. -/
theorem claim_C8_amended_witness :
    process_with_ai ["img_0.png"] (fun _ => true) 6 4
        [⟨"<w:p>one</w:p>", " one "⟩,
         ⟨"<w:p><w:drawing>pic</w:drawing></w:p>", ""⟩,
         ⟨"<w:p>two</w:p>", "two"⟩] (.ok "A\n\nB")
      = [.text "A", .picture "img_0.png" 6 4, .text "B"] :=
  claim_C8_amended ⟨"<w:p>one</w:p>", " one "⟩
    ⟨"<w:p><w:drawing>pic</w:drawing></w:p>", ""⟩ ⟨"<w:p>two</w:p>", "two"⟩
    "img_0.png" [] (fun _ => true) 6 4 "A\n\nB" "A" "B"
    (by decide) (by decide) (by decide) (by decide) (by decide) rfl
    (by decide) (by decide)

/-! ## Claim C9 — duplicate identifiers: warning, never a hard error -/

mutual

theorem validate_section_eq_nil :
    ∀ (s : Section), (∀ t ∈ flattenSection s, section_fields_valid t) →
      validate_section s = []
  | .mk id title ty wc req subs bp o p, h => by
    have hself : section_fields_valid (Section.mk id title ty wc req subs bp o p) :=
      h _ (by rw [flattenSection]; exact List.mem_cons_self _ _)
    have hsubs : ∀ t ∈ flattenSections subs, section_fields_valid t :=
      fun t ht => h t (by rw [flattenSection]; exact List.mem_cons_of_mem _ ht)
    obtain ⟨hid, htitle, hwc, hlist⟩ := hself
    simp only [Section.id, Section.title, Section.word_count,
      Section.sectionType, Section.bullet_points] at hid htitle hwc hlist
    rw [validate_section.eq_def]
    dsimp only
    rw [if_neg hid, if_neg htitle]
    have hwcnil :
        (match wc with
          | some w =>
            (if w < 0 then
              ["Section '" ++ id ++ "': word_count must be a positive integer"]
             else []) ++
            (if w > 10000 then
              ["Section '" ++ id ++ "': word_count too large (max 10000)"]
             else [])
          | none => []) = [] := by
      cases wc with
      | none => rfl
      | some w =>
        obtain ⟨hw0, hw1⟩ := hwc w rfl
        dsimp only
        rw [if_neg (not_lt.mpr hw0), if_neg (not_lt.mpr hw1)]
        rfl
    rw [hwcnil]
    have hlistnil :
        (if ty = SectionType.list ∧ (bp = none ∨ bp = some []) then
          ["Section '" ++ id ++ "': list type sections must have bullet_points"]
         else []) = [] := by
      by_cases hty : ty = SectionType.list
      · obtain ⟨hb1, hb2⟩ := hlist hty
        rw [if_neg]
        rintro ⟨_, hb | hb⟩
        · exact hb1 hb
        · exact hb2 hb
      · rw [if_neg (fun c => hty c.1)]
    rw [hlistnil]
    rw [validate_subsections_eq_nil id 0 subs hsubs]
    rfl

theorem validate_subsections_eq_nil :
    ∀ (pid : String) (i : Nat) (l : List Section),
      (∀ t ∈ flattenSections l, section_fields_valid t) →
      validate_subsections pid i l = []
  | _, _, [], _ => rfl
  | pid, i, s :: rest, h => by
    rw [validate_subsections]
    rw [validate_section_eq_nil s
      (fun t ht => h t (by
        rw [flattenSections]; exact List.mem_append_left _ ht))]
    rw [validate_subsections_eq_nil pid (i + 1) rest
      (fun t ht => h t (by
        rw [flattenSections]; exact List.mem_append_right _ ht))]
    rfl

end

theorem validate_template_sections_eq_nil :
    ∀ (i : Nat) (l : List Section),
      (∀ t ∈ flattenSections l, section_fields_valid t) →
      validate_template_sections i l = [] := by
  intro i l
  induction l generalizing i with
  | nil => intro _; rfl
  | cons s rest ih =>
    intro h
    rw [validate_template_sections]
    rw [validate_section_eq_nil s
      (fun t ht => h t (by
        rw [flattenSections]; exact List.mem_append_left _ ht))]
    rw [ih (i + 1)
      (fun t ht => h t (by
        rw [flattenSections]; exact List.mem_append_right _ ht))]
    rfl

/-- C9: for every otherwise-valid template in which some section identifier
occurs more than once anywhere in the tree, `validate_template` reports no
error (it never compares identifiers across sections), while
`validate_template_consistency` emits a warning naming every duplicated
identifier. -/
theorem claim_C9 (template : DocumentTemplate) (sid : String)
    (hid : validate_template_id template.id = true)
    (hname : template.name ≠ "") (hdesc : template.description ≠ "")
    (hcat : template.category ≠ "")
    (hsec : template.sections ≠ []) (hlen : template.sections.length ≤ 50)
    (hvalid : ∀ s ∈ flattenSections template.sections, section_fields_valid s)
    (htw : ∀ w, template.total_word_count = some w → 0 ≤ w ∧ w ≤ 100000)
    (hdup : 2 ≤ (collect_section_ids template).count sid) :
    validate_template template = [] ∧
    sid ∈ duplicate_ids template ∧
    ("Duplicate section IDs found: " ++ pyJoin ", " (duplicate_ids template))
      ∈ validate_template_consistency template := by
  have hmemdup : sid ∈ duplicate_ids template := by
    have hmem : sid ∈ collect_section_ids template :=
      List.count_pos_iff.mp (by omega)
    unfold duplicate_ids
    refine List.mem_filter.mpr ⟨List.mem_dedup.mpr hmem, ?_⟩
    simpa using (by omega : 1 < (collect_section_ids template).count sid)
  refine ⟨?_, hmemdup, ?_⟩
  · unfold validate_template
    rw [if_neg (by simpa using hid), if_neg hname, if_neg hdesc, if_neg hcat]
    have hnonempty : template.sections.isEmpty = false := by
      cases hs : template.sections with
      | nil => exact absurd hs hsec
      | cons a l => rfl
    rw [if_neg (by simp [hnonempty])]
    rw [if_neg (not_lt.mpr hlen)]
    rw [validate_template_sections_eq_nil 0 template.sections hvalid]
    have htwnil :
        (match template.total_word_count with
          | some w =>
            (if w < 0 then ["total_word_count must be a positive integer"]
             else []) ++
            (if w > 100000 then ["total_word_count too large (max 100000)"]
             else [])
          | none => []) = [] := by
      cases htwc : template.total_word_count with
      | none => rfl
      | some w =>
        obtain ⟨hw0, hw1⟩ := htw w htwc
        dsimp only
        rw [if_neg (not_lt.mpr hw0), if_neg (not_lt.mpr hw1)]
        rfl
    rw [htwnil]
    rfl
  · have hdupne : (duplicate_ids template).isEmpty = false := by
      cases hd : duplicate_ids template with
      | nil => rw [hd] at hmemdup; exact absurd hmemdup (List.not_mem_nil sid)
      | cons a l => rfl
    unfold validate_template_consistency
    rw [hdupne]
    simp only [Bool.false_eq_true, if_false]
    exact List.mem_append_left _ (List.mem_singleton.mpr rfl)

/-- Witness for C9: a template whose root section and its nested subsection
share the identifier "a". -/
theorem claim_C9_witness :
    validate_template
      ⟨"t1", "n", "d", "cat",
        [Section.mk "a" "A" .heading none none
          [Section.mk "a" "A2" .heading none none [] none false none]
          none false none], none⟩ = [] ∧
    "a" ∈ duplicate_ids
      ⟨"t1", "n", "d", "cat",
        [Section.mk "a" "A" .heading none none
          [Section.mk "a" "A2" .heading none none [] none false none]
          none false none], none⟩ ∧
    ("Duplicate section IDs found: " ++ pyJoin ", "
        (duplicate_ids
          ⟨"t1", "n", "d", "cat",
            [Section.mk "a" "A" .heading none none
              [Section.mk "a" "A2" .heading none none [] none false none]
              none false none], none⟩))
      ∈ validate_template_consistency
        ⟨"t1", "n", "d", "cat",
          [Section.mk "a" "A" .heading none none
            [Section.mk "a" "A2" .heading none none [] none false none]
            none false none], none⟩ := by
  refine claim_C9 _ "a" (by decide) (by decide) (by decide) (by decide)
    (by simp) (by simp) ?_ ?_ ?_
  · intro s hs
    simp only [flattenSections, flattenSection, List.cons_append,
      List.nil_append, List.mem_cons, List.not_mem_nil, or_false] at hs
    rcases hs with rfl | rfl
    · exact ⟨by decide, by decide,
        fun w hw => by simp [Section.word_count] at hw,
        fun h => by simp [Section.sectionType] at h⟩
    · exact ⟨by decide, by decide,
        fun w hw => by simp [Section.word_count] at hw,
        fun h => by simp [Section.sectionType] at h⟩
  · intro w hw
    simp at hw
  · simp only [collect_section_ids, flattenSections, flattenSection,
      List.cons_append, List.nil_append, List.map_cons, List.map_nil,
      Section.id]
    decide

end FormatSpec
